import Mathlib

/-!
Shallow embedding of the VideoDetectX analysis pipeline (src/main.py).

The program analyzes a video frame-by-frame.  `detect_camera_shake` reads a
first frame, then for each subsequent frame computes a dense optical-flow
field against the retained previous frame, reduces it to a mean magnitude,
and records a shake event whenever the mean strictly exceeds the threshold.
`detect_faces_objects` resolves a cascade profile to a classifier file, runs
the classifier on every frame, and records a detection event for each frame
with a non-empty box list.  Both functions write a JSON report after the
frame loop and release the capture there; their early `return []` paths do
neither.

External collaborators are modelled as function parameters:
  - `cvtColor : F → G` stands for cv2.cvtColor(·, COLOR_BGR2GRAY);
  - `meanFlowMagnitude : G → G → ℚ` stands for the composite
    np.mean(cartToPolar(calcOpticalFlowFarneback(prev_gray, gray, ...)));
  - `detectMultiScale : String → G → List Box` stands for
    CascadeClassifier(path).detectMultiScale(gray, 1.1, 4), its result
    row-listed via `.tolist()`.
cv2.VideoCapture is modelled by `FrameSource`: `opened` is `isOpened()`,
`fps` is `get(CAP_PROP_FPS)`, and `read()` yields the frames of `frames`
in order and then reports end-of-stream.  Python numbers are modelled by
`ℚ`; Python's `/`, which raises ZeroDivisionError on a zero denominator,
is modelled by `pyDiv` into the `Except` monad, so a run that raises
returns `.error` (the exception propagates out of the function: no release
and no report write happen in that case, as in the source).
-/

/-- A `cv2.VideoCapture`: whether it opened, its reported CAP_PROP_FPS,
and the sequence of frames that successive `read()` calls yield. -/
structure FrameSource (F : Type) where
  opened : Bool
  fps : ℚ
  frames : List F
deriving Repr

/-- One row of `detections.tolist()`: a bounding box as a list of integers. -/
abbrev Box : Type := List ℤ

/-- One element of `shake_timestamps`:
`{"frame": frame_count, "timestamp": timestamp, "magnitude": float(mean_magnitude)}`. -/
structure ShakeEvent where
  frame : ℕ
  timestamp : ℚ
  magnitude : ℚ
deriving Repr, DecidableEq

/-- The JSON document written by `detect_camera_shake`. -/
structure ShakeReport where
  source_video : String
  shake_events : List ShakeEvent
  total_events : ℕ
deriving Repr, DecidableEq

/-- One element of `detection_results`:
`{"frame": ..., "timestamp": ..., "count": ..., "locations": ...}`. -/
structure DetectionEvent where
  frame : ℕ
  timestamp : ℚ
  count : ℕ
  locations : List Box
deriving Repr, DecidableEq

/-- The JSON document written by `detect_faces_objects`. -/
structure DetectionReport where
  source_video : String
  detection_type : String
  detections : List DetectionEvent
  total_frames_with_detections : ℕ
deriving Repr, DecidableEq

/-- Observable outcome of one `detect_camera_shake` run: the returned list,
whether `cap.release()` was executed, and the report written to
`output_path` (`none` when no write was attempted). -/
structure ShakeOutcome where
  result : List ShakeEvent
  released : Bool
  report : Option ShakeReport
deriving Repr, DecidableEq

/-- Observable outcome of one `detect_faces_objects` run; `framesRead`
counts the frames consumed from the source. -/
structure DetectOutcome where
  result : List DetectionEvent
  released : Bool
  report : Option DetectionReport
  framesRead : ℕ
deriving Repr, DecidableEq

/-- Python division `a / b`: raises ZeroDivisionError when `b == 0`. -/
def pyDiv (a b : ℚ) : Except String ℚ :=
  if b = 0 then .error "ZeroDivisionError" else .ok (a / b)

/-- The `while True` loop of `detect_camera_shake`: carries `prev_gray` and
`frame_count`, reads the remaining `frames`, and accumulates shake events.
`mean_magnitude > threshold` uses the source's strict inequality. -/
def shakeLoop {F G : Type} (cvtColor : F → G) (meanFlowMagnitude : G → G → ℚ)
    (fps threshold : ℚ) : G → List F → ℕ → Except String (List ShakeEvent)
  | _, [], _ => .ok []
  | prev_gray, frame :: rest, frame_count => do
      let gray := cvtColor frame
      let mean_magnitude := meanFlowMagnitude prev_gray gray
      if mean_magnitude > threshold then do
        let timestamp ← pyDiv (frame_count : ℚ) fps
        let tail ← shakeLoop cvtColor meanFlowMagnitude fps threshold gray rest (frame_count + 1)
        .ok (ShakeEvent.mk frame_count timestamp mean_magnitude :: tail)
      else
        shakeLoop cvtColor meanFlowMagnitude fps threshold gray rest (frame_count + 1)

/-- `detect_camera_shake(video_path, output_path, threshold)` from
src/main.py.  The early paths (`not cap.isOpened()`, failed first read)
return the empty list without releasing the capture and without writing;
the normal path runs the loop from `frame_count = 1`, releases, and writes
the report. -/
def detect_camera_shake {F G : Type} (cvtColor : F → G)
    (meanFlowMagnitude : G → G → ℚ) (src : FrameSource F)
    (video_path : String) (threshold : ℚ) : Except String ShakeOutcome :=
  if ¬ src.opened then
    .ok ⟨[], false, none⟩
  else
    let fps := src.fps
    match src.frames with
    | [] => .ok ⟨[], false, none⟩
    | prev_frame :: rest => do
        let prev_gray := cvtColor prev_frame
        let shake_timestamps ← shakeLoop cvtColor meanFlowMagnitude fps threshold prev_gray rest 1
        .ok ⟨shake_timestamps, true,
             some ⟨video_path, shake_timestamps, shake_timestamps.length⟩⟩

/-- `cv2.data.haarcascades + 'haarcascade_frontalface_default.xml'`. -/
def face_cascade_path : String := "haarcascades/haarcascade_frontalface_default.xml"

/-- `cv2.data.haarcascades + 'haarcascade_fullbody.xml'`. -/
def fullbody_cascade_path : String := "haarcascades/haarcascade_fullbody.xml"

/-- The `while True` loop of `detect_faces_objects`: runs the classifier on
every frame from `frame_count = 0` and accumulates an event exactly when
`len(detections) > 0`; `locations` is the classifier's box list in order. -/
def detectLoop {F G : Type} (cvtColor : F → G) (classify : G → List Box)
    (fps : ℚ) : List F → ℕ → Except String (List DetectionEvent)
  | [], _ => .ok []
  | frame :: rest, frame_count => do
      let gray := cvtColor frame
      let detections := classify gray
      if 0 < detections.length then do
        let timestamp ← pyDiv (frame_count : ℚ) fps
        let tail ← detectLoop cvtColor classify fps rest (frame_count + 1)
        .ok (DetectionEvent.mk frame_count timestamp detections.length detections :: tail)
      else
        detectLoop cvtColor classify fps rest (frame_count + 1)

/-- `detect_faces_objects(video_path, output_path, cascade_type)` from
src/main.py.  The open-failure path and the unknown-`cascade_type` path
return the empty list with no release, no report and no frame read; the
recognized profiles run the loop over every frame, release, and write. -/
def detect_faces_objects {F G : Type} (cvtColor : F → G)
    (detectMultiScale : String → G → List Box) (src : FrameSource F)
    (video_path : String) (cascade_type : String) : Except String DetectOutcome :=
  if ¬ src.opened then
    .ok ⟨[], false, none, 0⟩
  else
    let fps := src.fps
    let cascade_path? : Option String :=
      if cascade_type = "face" then some face_cascade_path
      else if cascade_type = "object" then some fullbody_cascade_path
      else none
    match cascade_path? with
    | none => .ok ⟨[], false, none, 0⟩
    | some cascade_path => do
        let detection_results ← detectLoop cvtColor (detectMultiScale cascade_path) fps src.frames 0
        .ok ⟨detection_results, true,
             some ⟨video_path, cascade_type, detection_results, detection_results.length⟩,
             src.frames.length⟩

/-- The mean flow magnitudes of the consecutive grayscale frame pairs:
element `j` is the mean magnitude between retained gray frame `j` and
gray frame `j+1` of the run. -/
def pairMeans {F G : Type} (cvtColor : F → G) (meanFlowMagnitude : G → G → ℚ) :
    G → List F → List ℚ
  | _, [] => []
  | g, f :: rest =>
      meanFlowMagnitude g (cvtColor f) :: pairMeans cvtColor meanFlowMagnitude (cvtColor f) rest

/-- Closed form of the shake loop's output when no division error occurs:
starting at index `c`, the pair with mean `m` at offset `j` yields the event
`⟨c+j, (c+j)/fps, m⟩` exactly when `m > threshold`. -/
def shakeEventsSpec (fps threshold : ℚ) : ℕ → List ℚ → List ShakeEvent
  | _, [] => []
  | c, m :: ms =>
      if m > threshold then
        ShakeEvent.mk c ((c : ℚ) / fps) m :: shakeEventsSpec fps threshold (c + 1) ms
      else
        shakeEventsSpec fps threshold (c + 1) ms

/-- Closed form of the detection loop's output when no division error
occurs, over the per-frame classifier box lists. -/
def detectEventsSpec (fps : ℚ) : ℕ → List (List Box) → List DetectionEvent
  | _, [] => []
  | c, bs :: rest =>
      if 0 < bs.length then
        DetectionEvent.mk c ((c : ℚ) / fps) bs.length bs :: detectEventsSpec fps (c + 1) rest
      else
        detectEventsSpec fps (c + 1) rest

/-- Whether `cap.release()` was executed on a shake-detection run
(an uncaught exception means it was not). -/
def releasedOfShake : Except String ShakeOutcome → Bool
  | .error _ => false
  | .ok o => o.released

/-- Whether a report write was attempted on a shake-detection run. -/
def reportAttemptedShake : Except String ShakeOutcome → Bool
  | .error _ => false
  | .ok o => o.report.isSome

/-- Whether `cap.release()` was executed on a face/object-detection run. -/
def releasedOfDetect : Except String DetectOutcome → Bool
  | .error _ => false
  | .ok o => o.released

/-- Whether a report write was attempted on a face/object-detection run. -/
def reportAttemptedDetect : Except String DetectOutcome → Bool
  | .error _ => false
  | .ok o => o.report.isSome

/-- Identity grayscale conversion, for concrete instances. -/
def grayId : ℕ → ℕ := fun n => n

/-- A concrete motion estimator: the mean magnitude of a pair is the value
of its current gray frame. -/
def magSecond : ℕ → ℕ → ℚ := fun _ b => (b : ℚ)

/-- A concrete classifier: one box on gray frame `0`, nothing elsewhere. -/
def boxAtZero : String → ℕ → List Box := fun _ g => if g = 0 then [[10, 10, 20, 20]] else []

lemma shakeLoop_eq_ok {F G : Type} (cvtColor : F → G) (mm : G → G → ℚ)
    (fps thr : ℚ) (hfps : fps ≠ 0) :
    ∀ (fs : List F) (g : G) (c : ℕ),
      shakeLoop cvtColor mm fps thr g fs c =
        .ok (shakeEventsSpec fps thr c (pairMeans cvtColor mm g fs)) := by
  intro fs
  induction fs with
  | nil => intro g c; rfl
  | cons f rest ih =>
      intro g c
      rw [shakeLoop, pairMeans, shakeEventsSpec]
      by_cases h : mm g (cvtColor f) > thr
      · simp only [if_pos h, pyDiv, if_neg hfps, ih]
        rfl
      · simp only [if_neg h, ih]

lemma detectLoop_eq_ok {F G : Type} (cvtColor : F → G) (classify : G → List Box)
    (fps : ℚ) (hfps : fps ≠ 0) :
    ∀ (fs : List F) (c : ℕ),
      detectLoop cvtColor classify fps fs c =
        .ok (detectEventsSpec fps c (fs.map (fun f => classify (cvtColor f)))) := by
  intro fs
  induction fs with
  | nil => intro c; rfl
  | cons f rest ih =>
      intro c
      rw [detectLoop, List.map_cons, detectEventsSpec]
      by_cases h : 0 < (classify (cvtColor f)).length
      · simp only [if_pos h, pyDiv, if_neg hfps, ih]
        rfl
      · simp only [if_neg h, ih]

lemma mem_shakeEventsSpec (fps thr : ℚ) :
    ∀ (c : ℕ) (ms : List ℚ) (e : ShakeEvent),
      e ∈ shakeEventsSpec fps thr c ms ↔
        ∃ j m, ms[j]? = some m ∧ m > thr ∧
          e = ShakeEvent.mk (c + j) (((c + j : ℕ) : ℚ) / fps) m := by
  intro c ms
  induction ms generalizing c with
  | nil =>
      intro e
      simp [shakeEventsSpec]
  | cons m ms ih =>
      intro e
      rw [shakeEventsSpec]
      by_cases h : m > thr
      · rw [if_pos h]
        simp only [List.mem_cons, ih (c + 1)]
        constructor
        · rintro (rfl | ⟨j, m', hj, hm', rfl⟩)
          · exact ⟨0, m, by simp, h, by simp⟩
          · refine ⟨j + 1, m', by simpa using hj, hm', ?_⟩
            have hc : c + 1 + j = c + (j + 1) := by omega
            rw [hc]
        · rintro ⟨j, m', hj, hm', rfl⟩
          match j, hj with
          | 0, hj =>
              have hm : m = m' := by simpa using hj
              subst hm
              left
              simp
          | j + 1, hj =>
              right
              refine ⟨j, m', by simpa using hj, hm', ?_⟩
              have hc : c + 1 + j = c + (j + 1) := by omega
              rw [hc]
      · rw [if_neg h]
        rw [ih (c + 1)]
        constructor
        · rintro ⟨j, m', hj, hm', rfl⟩
          refine ⟨j + 1, m', by simpa using hj, hm', ?_⟩
          have hc : c + 1 + j = c + (j + 1) := by omega
          rw [hc]
        · rintro ⟨j, m', hj, hm', rfl⟩
          match j, hj with
          | 0, hj =>
              have hm : m = m' := by simpa using hj
              subst hm
              exact absurd hm' h
          | j + 1, hj =>
              refine ⟨j, m', by simpa using hj, hm', ?_⟩
              have hc : c + 1 + j = c + (j + 1) := by omega
              rw [hc]

lemma mem_detectEventsSpec (fps : ℚ) :
    ∀ (c : ℕ) (bss : List (List Box)) (e : DetectionEvent),
      e ∈ detectEventsSpec fps c bss ↔
        ∃ j bs, bss[j]? = some bs ∧ 0 < bs.length ∧
          e = DetectionEvent.mk (c + j) (((c + j : ℕ) : ℚ) / fps) bs.length bs := by
  intro c bss
  induction bss generalizing c with
  | nil =>
      intro e
      simp [detectEventsSpec]
  | cons bs bss ih =>
      intro e
      rw [detectEventsSpec]
      by_cases h : 0 < bs.length
      · rw [if_pos h]
        simp only [List.mem_cons, ih (c + 1)]
        constructor
        · rintro (rfl | ⟨j, bs', hj, hbs', rfl⟩)
          · exact ⟨0, bs, by simp, h, by simp⟩
          · refine ⟨j + 1, bs', by simpa using hj, hbs', ?_⟩
            have hc : c + 1 + j = c + (j + 1) := by omega
            rw [hc]
        · rintro ⟨j, bs', hj, hbs', rfl⟩
          match j, hj with
          | 0, hj =>
              have hb : bs = bs' := by simpa using hj
              subst hb
              left
              simp
          | j + 1, hj =>
              right
              refine ⟨j, bs', by simpa using hj, hbs', ?_⟩
              have hc : c + 1 + j = c + (j + 1) := by omega
              rw [hc]
      · rw [if_neg h]
        rw [ih (c + 1)]
        constructor
        · rintro ⟨j, bs', hj, hbs', rfl⟩
          refine ⟨j + 1, bs', by simpa using hj, hbs', ?_⟩
          have hc : c + 1 + j = c + (j + 1) := by omega
          rw [hc]
        · rintro ⟨j, bs', hj, hbs', rfl⟩
          match j, hj with
          | 0, hj =>
              have hb : bs = bs' := by simpa using hj
              subst hb
              exact absurd hbs' h
          | j + 1, hj =>
              refine ⟨j, bs', by simpa using hj, hbs', ?_⟩
              have hc : c + 1 + j = c + (j + 1) := by omega
              rw [hc]

lemma shakeEventsSpec_map_frame_sublist (fps thr : ℚ) :
    ∀ (c : ℕ) (ms : List ℚ),
      List.Sublist ((shakeEventsSpec fps thr c ms).map ShakeEvent.frame)
        (List.range' c ms.length) := by
  intro c ms
  induction ms generalizing c with
  | nil => simp [shakeEventsSpec]
  | cons m ms ih =>
      rw [shakeEventsSpec, List.length_cons, List.range'_succ]
      by_cases h : m > thr
      · rw [if_pos h, List.map_cons]
        exact List.Sublist.cons₂ c (ih (c + 1))
      · rw [if_neg h]
        exact List.Sublist.cons c (ih (c + 1))

lemma detectEventsSpec_length (fps : ℚ) :
    ∀ (c : ℕ) (bss : List (List Box)),
      (detectEventsSpec fps c bss).length =
        bss.countP (fun bs => decide (0 < bs.length)) := by
  intro c bss
  induction bss generalizing c with
  | nil => simp [detectEventsSpec]
  | cons bs bss ih =>
      rw [detectEventsSpec, List.countP_cons]
      by_cases h : 0 < bs.length
      · rw [if_pos h, List.length_cons, ih (c + 1)]
        simp [h]
      · rw [if_neg h, ih (c + 1)]
        simp [h]

lemma detect_camera_shake_not_opened {F G : Type} (cvtColor : F → G)
    (mm : G → G → ℚ) (src : FrameSource F) (p : String) (thr : ℚ)
    (h : src.opened = false) :
    detect_camera_shake cvtColor mm src p thr = .ok ⟨[], false, none⟩ := by
  rw [detect_camera_shake, if_pos (by simp [h])]

lemma detect_camera_shake_empty {F G : Type} (cvtColor : F → G)
    (mm : G → G → ℚ) (src : FrameSource F) (p : String) (thr : ℚ)
    (h : src.frames = []) :
    detect_camera_shake cvtColor mm src p thr = .ok ⟨[], false, none⟩ := by
  rw [detect_camera_shake]
  by_cases hop : src.opened
  · rw [if_neg (by simp [hop])]
    rw [h]
  · rw [if_pos (by simp [hop])]

lemma detect_camera_shake_cons {F G : Type} (cvtColor : F → G)
    (mm : G → G → ℚ) (fps thr : ℚ) (p : String) (f : F) (rest : List F) :
    detect_camera_shake cvtColor mm ⟨true, fps, f :: rest⟩ p thr =
      Except.bind (shakeLoop cvtColor mm fps thr (cvtColor f) rest 1)
        (fun evs => .ok ⟨evs, true, some ⟨p, evs, evs.length⟩⟩) := rfl

lemma detect_camera_shake_ok {F G : Type} (cvtColor : F → G)
    (mm : G → G → ℚ) (fps thr : ℚ) (hfps : fps ≠ 0) (p : String)
    (f : F) (rest : List F) :
    detect_camera_shake cvtColor mm ⟨true, fps, f :: rest⟩ p thr =
      .ok ⟨shakeEventsSpec fps thr 1 (pairMeans cvtColor mm (cvtColor f) rest), true,
           some ⟨p, shakeEventsSpec fps thr 1 (pairMeans cvtColor mm (cvtColor f) rest),
                 (shakeEventsSpec fps thr 1 (pairMeans cvtColor mm (cvtColor f) rest)).length⟩⟩ := by
  rw [detect_camera_shake_cons, shakeLoop_eq_ok cvtColor mm fps thr hfps]
  rfl

lemma detect_faces_objects_not_opened {F G : Type} (cvtColor : F → G)
    (dms : String → G → List Box) (src : FrameSource F) (p ct : String)
    (h : src.opened = false) :
    detect_faces_objects cvtColor dms src p ct = .ok ⟨[], false, none, 0⟩ := by
  rw [detect_faces_objects, if_pos (by simp [h])]

lemma detect_faces_objects_unknown {F G : Type} (cvtColor : F → G)
    (dms : String → G → List Box) (src : FrameSource F) (p ct : String)
    (hf : ct ≠ "face") (ho : ct ≠ "object") :
    detect_faces_objects cvtColor dms src p ct = .ok ⟨[], false, none, 0⟩ := by
  rw [detect_faces_objects]
  by_cases hop : src.opened
  · rw [if_neg (by simp [hop])]
    simp only [if_neg hf, if_neg ho]
  · rw [if_pos (by simp [hop])]

lemma detect_faces_objects_face {F G : Type} (cvtColor : F → G)
    (dms : String → G → List Box) (fps : ℚ) (p : String) (frames : List F) :
    detect_faces_objects cvtColor dms ⟨true, fps, frames⟩ p "face" =
      Except.bind (detectLoop cvtColor (dms face_cascade_path) fps frames 0)
        (fun evs => .ok ⟨evs, true, some ⟨p, "face", evs, evs.length⟩, frames.length⟩) := rfl

lemma detect_faces_objects_object {F G : Type} (cvtColor : F → G)
    (dms : String → G → List Box) (fps : ℚ) (p : String) (frames : List F) :
    detect_faces_objects cvtColor dms ⟨true, fps, frames⟩ p "object" =
      Except.bind (detectLoop cvtColor (dms fullbody_cascade_path) fps frames 0)
        (fun evs => .ok ⟨evs, true, some ⟨p, "object", evs, evs.length⟩, frames.length⟩) := rfl

lemma detect_faces_objects_face_ok {F G : Type} (cvtColor : F → G)
    (dms : String → G → List Box) (fps : ℚ) (hfps : fps ≠ 0) (p : String)
    (frames : List F) :
    detect_faces_objects cvtColor dms ⟨true, fps, frames⟩ p "face" =
      .ok ⟨detectEventsSpec fps 0 (frames.map (fun f => dms face_cascade_path (cvtColor f))), true,
           some ⟨p, "face",
                 detectEventsSpec fps 0 (frames.map (fun f => dms face_cascade_path (cvtColor f))),
                 (detectEventsSpec fps 0 (frames.map (fun f => dms face_cascade_path (cvtColor f)))).length⟩,
           frames.length⟩ := by
  rw [detect_faces_objects_face, detectLoop_eq_ok cvtColor _ fps hfps]
  rfl

lemma detect_faces_objects_object_ok {F G : Type} (cvtColor : F → G)
    (dms : String → G → List Box) (fps : ℚ) (hfps : fps ≠ 0) (p : String)
    (frames : List F) :
    detect_faces_objects cvtColor dms ⟨true, fps, frames⟩ p "object" =
      .ok ⟨detectEventsSpec fps 0 (frames.map (fun f => dms fullbody_cascade_path (cvtColor f))), true,
           some ⟨p, "object",
                 detectEventsSpec fps 0 (frames.map (fun f => dms fullbody_cascade_path (cvtColor f))),
                 (detectEventsSpec fps 0 (frames.map (fun f => dms fullbody_cascade_path (cvtColor f)))).length⟩,
           frames.length⟩ := by
  rw [detect_faces_objects_object, detectLoop_eq_ok cvtColor _ fps hfps]
  rfl

lemma releasedOfShake_char {F G : Type} (cvtColor : F → G) (mm : G → G → ℚ)
    (src : FrameSource F) (p : String) (thr : ℚ) :
    releasedOfShake (detect_camera_shake cvtColor mm src p thr) = true ↔
      src.opened = true ∧ ∃ f rest, src.frames = f :: rest ∧
        ∃ evs, shakeLoop cvtColor mm src.fps thr (cvtColor f) rest 1 = .ok evs := by
  obtain ⟨op, fps, frames⟩ := src
  cases op with
  | false =>
      rw [detect_camera_shake_not_opened _ _ _ _ _ rfl]
      simp [releasedOfShake]
  | true =>
      cases frames with
      | nil =>
          rw [detect_camera_shake_empty _ _ _ _ _ rfl]
          simp [releasedOfShake]
      | cons f rest =>
          rw [detect_camera_shake_cons]
          cases hl : shakeLoop cvtColor mm fps thr (cvtColor f) rest 1 with
          | error s => simp [releasedOfShake, Except.bind, hl, List.cons.injEq]
          | ok evs =>
              simp [releasedOfShake, Except.bind, hl, List.cons.injEq]
              exact ⟨f, rest, ⟨rfl, rfl⟩, evs, hl⟩

lemma reportAttemptedShake_char {F G : Type} (cvtColor : F → G) (mm : G → G → ℚ)
    (src : FrameSource F) (p : String) (thr : ℚ) :
    reportAttemptedShake (detect_camera_shake cvtColor mm src p thr) = true ↔
      src.opened = true ∧ ∃ f rest, src.frames = f :: rest ∧
        ∃ evs, shakeLoop cvtColor mm src.fps thr (cvtColor f) rest 1 = .ok evs := by
  obtain ⟨op, fps, frames⟩ := src
  cases op with
  | false =>
      rw [detect_camera_shake_not_opened _ _ _ _ _ rfl]
      simp [reportAttemptedShake]
  | true =>
      cases frames with
      | nil =>
          rw [detect_camera_shake_empty _ _ _ _ _ rfl]
          simp [reportAttemptedShake]
      | cons f rest =>
          rw [detect_camera_shake_cons]
          cases hl : shakeLoop cvtColor mm fps thr (cvtColor f) rest 1 with
          | error s => simp [reportAttemptedShake, Except.bind, hl, List.cons.injEq]
          | ok evs =>
              simp [reportAttemptedShake, Except.bind, hl, List.cons.injEq]
              exact ⟨f, rest, ⟨rfl, rfl⟩, evs, hl⟩

lemma releasedOfDetect_char {F G : Type} (cvtColor : F → G)
    (dms : String → G → List Box) (src : FrameSource F) (p ct : String) :
    releasedOfDetect (detect_faces_objects cvtColor dms src p ct) = true ↔
      src.opened = true ∧
        ((ct = "face" ∧
            ∃ evs, detectLoop cvtColor (dms face_cascade_path) src.fps src.frames 0 = .ok evs) ∨
         (ct = "object" ∧
            ∃ evs, detectLoop cvtColor (dms fullbody_cascade_path) src.fps src.frames 0 = .ok evs)) := by
  obtain ⟨op, fps, frames⟩ := src
  cases op with
  | false =>
      rw [detect_faces_objects_not_opened _ _ _ _ _ rfl]
      simp [releasedOfDetect]
  | true =>
      by_cases hface : ct = "face"
      · subst hface
        rw [detect_faces_objects_face]
        cases hl : detectLoop cvtColor (dms face_cascade_path) fps frames 0 with
        | error s =>
            simp [releasedOfDetect, Except.bind, hl,
                  show ("face" : String) ≠ "object" by decide]
        | ok evs =>
            simp [releasedOfDetect, Except.bind, hl,
                  show ("face" : String) ≠ "object" by decide]
      · by_cases hobj : ct = "object"
        · subst hobj
          rw [detect_faces_objects_object]
          cases hl : detectLoop cvtColor (dms fullbody_cascade_path) fps frames 0 with
          | error s =>
              simp [releasedOfDetect, Except.bind, hl,
                    show ("object" : String) ≠ "face" by decide]
          | ok evs =>
              simp [releasedOfDetect, Except.bind, hl,
                    show ("object" : String) ≠ "face" by decide]
        · rw [detect_faces_objects_unknown _ _ _ _ _ hface hobj]
          simp [releasedOfDetect, hface, hobj]

lemma reportAttemptedDetect_char {F G : Type} (cvtColor : F → G)
    (dms : String → G → List Box) (src : FrameSource F) (p ct : String) :
    reportAttemptedDetect (detect_faces_objects cvtColor dms src p ct) = true ↔
      src.opened = true ∧
        ((ct = "face" ∧
            ∃ evs, detectLoop cvtColor (dms face_cascade_path) src.fps src.frames 0 = .ok evs) ∨
         (ct = "object" ∧
            ∃ evs, detectLoop cvtColor (dms fullbody_cascade_path) src.fps src.frames 0 = .ok evs)) := by
  obtain ⟨op, fps, frames⟩ := src
  cases op with
  | false =>
      rw [detect_faces_objects_not_opened _ _ _ _ _ rfl]
      simp [reportAttemptedDetect]
  | true =>
      by_cases hface : ct = "face"
      · subst hface
        rw [detect_faces_objects_face]
        cases hl : detectLoop cvtColor (dms face_cascade_path) fps frames 0 with
        | error s =>
            simp [reportAttemptedDetect, Except.bind, hl,
                  show ("face" : String) ≠ "object" by decide]
        | ok evs =>
            simp [reportAttemptedDetect, Except.bind, hl,
                  show ("face" : String) ≠ "object" by decide]
      · by_cases hobj : ct = "object"
        · subst hobj
          rw [detect_faces_objects_object]
          cases hl : detectLoop cvtColor (dms fullbody_cascade_path) fps frames 0 with
          | error s =>
              simp [reportAttemptedDetect, Except.bind, hl,
                    show ("object" : String) ≠ "face" by decide]
          | ok evs =>
              simp [reportAttemptedDetect, Except.bind, hl,
                    show ("object" : String) ≠ "face" by decide]
        · rw [detect_faces_objects_unknown _ _ _ _ _ hface hobj]
          simp [reportAttemptedDetect, hface, hobj]

/-- Claim C1: for every frame pair processed by shake detection, a
ShakeEvent is emitted if and only if the mean optical-flow magnitude is
strictly greater than the threshold; the emitted event has frame index
equal to the current 1-based sequence position (pair `j` is position
`j + 1`), timestamp `frame_index / fps`, and magnitude the unrounded mean;
and every emitted event arises from such a pair (so with threshold 0 a
pair of mean magnitude 0 emits nothing, since `0 > 0` fails). -/
theorem C1_shake_event_iff {F G : Type} (cvtColor : F → G) (mm : G → G → ℚ)
    (fps thr : ℚ) (hfps : fps ≠ 0) (p : String) (f : F) (rest : List F) :
    ∃ o : ShakeOutcome,
      detect_camera_shake cvtColor mm ⟨true, fps, f :: rest⟩ p thr = .ok o ∧
      (∀ j m, (pairMeans cvtColor mm (cvtColor f) rest)[j]? = some m →
        (((∃ e ∈ o.result, e.frame = j + 1) ↔ m > thr) ∧
         (∀ e ∈ o.result, e.frame = j + 1 →
            e = ShakeEvent.mk (j + 1) (((j + 1 : ℕ) : ℚ) / fps) m))) ∧
      (∀ e ∈ o.result, ∃ j m,
         (pairMeans cvtColor mm (cvtColor f) rest)[j]? = some m ∧ m > thr ∧
         e = ShakeEvent.mk (j + 1) (((j + 1 : ℕ) : ℚ) / fps) m) := by
  refine ⟨_, detect_camera_shake_ok cvtColor mm fps thr hfps p f rest, ?_, ?_⟩
  · intro j m hj
    constructor
    · constructor
      · rintro ⟨e, he, hframe⟩
        rw [mem_shakeEventsSpec] at he
        obtain ⟨j', m', hj', hm', rfl⟩ := he
        simp only [] at hframe
        have hjj : j' = j := by omega
        subst hjj
        have hmm : m' = m := by
          rw [hj] at hj'
          exact (Option.some.inj hj').symm
        subst hmm
        exact hm'
      · intro hm
        refine ⟨ShakeEvent.mk (1 + j) (((1 + j : ℕ) : ℚ) / fps) m, ?_,
          by show 1 + j = j + 1; omega⟩
        rw [mem_shakeEventsSpec]
        exact ⟨j, m, hj, hm, rfl⟩
    · intro e he hframe
      rw [mem_shakeEventsSpec] at he
      obtain ⟨j', m', hj', hm', rfl⟩ := he
      simp only [] at hframe
      have hjj : j' = j := by omega
      subst hjj
      have hmm : m' = m := by
        rw [hj] at hj'
        exact (Option.some.inj hj').symm
      subst hmm
      simp [Nat.add_comm 1]
  · intro e he
    rw [mem_shakeEventsSpec] at he
    obtain ⟨j, m, hj, hm, rfl⟩ := he
    refine ⟨j, m, hj, hm, ?_⟩
    simp [Nat.add_comm 1]

/-- Concrete instance of C1: fps 10, threshold 1/2, frames `[0, 1]`, the
motion estimator returning the second gray frame as mean magnitude. -/
theorem C1_shake_event_iff_witness :
    (10 : ℚ) ≠ 0 ∧
    (∃ o : ShakeOutcome,
      detect_camera_shake (fun n : ℕ => n) (fun _ b => (b : ℚ))
          ⟨true, 10, [0, 1]⟩ "v.mp4" (1/2) = .ok o ∧
      (∀ j m, (pairMeans (fun n : ℕ => n) (fun _ b => (b : ℚ)) 0 [1])[j]? = some m →
        (((∃ e ∈ o.result, e.frame = j + 1) ↔ m > 1/2) ∧
         (∀ e ∈ o.result, e.frame = j + 1 →
            e = ShakeEvent.mk (j + 1) (((j + 1 : ℕ) : ℚ) / 10) m))) ∧
      (∀ e ∈ o.result, ∃ j m,
         (pairMeans (fun n : ℕ => n) (fun _ b => (b : ℚ)) 0 [1])[j]? = some m ∧ m > 1/2 ∧
         e = ShakeEvent.mk (j + 1) (((j + 1 : ℕ) : ℚ) / 10) m)) :=
  ⟨by norm_num,
   C1_shake_event_iff (fun n : ℕ => n) (fun _ b => (b : ℚ)) 10 (1/2)
     (by norm_num) "v.mp4" 0 [1]⟩

/-- Counterexample to claim C2 as stated: a source that opens but yields no
frame is an exit path of `detect_camera_shake` on which the capture is not
released. -/
theorem C2_release_counterexample :
    (FrameSource.mk true 30 ([] : List ℕ)).opened = true ∧
    detect_camera_shake (fun n : ℕ => n) (fun _ b => (b : ℚ))
        ⟨true, 30, ([] : List ℕ)⟩ "v.mp4" (1/2) = .ok ⟨[], false, none⟩ ∧
    releasedOfShake (detect_camera_shake (fun n : ℕ => n) (fun _ b => (b : ℚ))
        ⟨true, 30, ([] : List ℕ)⟩ "v.mp4" (1/2)) = false :=
  ⟨rfl, rfl, rfl⟩

/-- Claim C2 amended: the frame source is released exactly on runs that
complete the frame loop (source opened; for shake detection a first frame
was read, for face/object detection the profile was recognized; and no
division-by-zero abort occurred).  On the early-return paths — open
failure, a source yielding no frame, an unrecognized profile — and on an
exception the operation returns without releasing the source. -/
theorem C2_release_amended {F G : Type} (cvtColor : F → G) (mm : G → G → ℚ)
    (dms : String → G → List Box) (src : FrameSource F) (p ct : String) (thr : ℚ) :
    (releasedOfShake (detect_camera_shake cvtColor mm src p thr) = true ↔
      src.opened = true ∧ ∃ f rest, src.frames = f :: rest ∧
        ∃ evs, shakeLoop cvtColor mm src.fps thr (cvtColor f) rest 1 = .ok evs) ∧
    (releasedOfDetect (detect_faces_objects cvtColor dms src p ct) = true ↔
      src.opened = true ∧
        ((ct = "face" ∧
            ∃ evs, detectLoop cvtColor (dms face_cascade_path) src.fps src.frames 0 = .ok evs) ∨
         (ct = "object" ∧
            ∃ evs, detectLoop cvtColor (dms fullbody_cascade_path) src.fps src.frames 0 = .ok evs))) :=
  ⟨releasedOfShake_char cvtColor mm src p thr,
   releasedOfDetect_char cvtColor dms src p ct⟩

/-- Counterexample to claim C3 as stated: on an existing input whose
requested profile is unrecognized, the run returns without attempting any
report write (and likewise for a source yielding no frame). -/
theorem C3_report_counterexample :
    detect_faces_objects (fun n : ℕ => n) (fun _ _ => ([] : List Box))
        ⟨true, 30, [0]⟩ "v.mp4" "body" = .ok ⟨[], false, none, 0⟩ ∧
    reportAttemptedDetect (detect_faces_objects (fun n : ℕ => n)
        (fun _ _ => ([] : List Box)) ⟨true, 30, [0]⟩ "v.mp4" "body") = false ∧
    reportAttemptedShake (detect_camera_shake (fun n : ℕ => n) (fun _ b => (b : ℚ))
        ⟨true, 30, ([] : List ℕ)⟩ "v.mp4" (1/2)) = false :=
  ⟨rfl, rfl, rfl⟩

/-- Claim C3 amended: a report write is attempted exactly when the run
completes the frame loop (source opened; for shake detection a first frame
was read, for face/object detection the profile was recognized; and no
division-by-zero abort occurred); on the open-failure, empty-source and
unknown-profile early returns, and on an exception, no write is attempted.
A run that reaches the loop's end always attempts the write, even with
zero events. -/
theorem C3_report_amended {F G : Type} (cvtColor : F → G) (mm : G → G → ℚ)
    (dms : String → G → List Box) (src : FrameSource F) (p ct : String) (thr : ℚ) :
    (reportAttemptedShake (detect_camera_shake cvtColor mm src p thr) = true ↔
      src.opened = true ∧ ∃ f rest, src.frames = f :: rest ∧
        ∃ evs, shakeLoop cvtColor mm src.fps thr (cvtColor f) rest 1 = .ok evs) ∧
    (reportAttemptedDetect (detect_faces_objects cvtColor dms src p ct) = true ↔
      src.opened = true ∧
        ((ct = "face" ∧
            ∃ evs, detectLoop cvtColor (dms face_cascade_path) src.fps src.frames 0 = .ok evs) ∨
         (ct = "object" ∧
            ∃ evs, detectLoop cvtColor (dms fullbody_cascade_path) src.fps src.frames 0 = .ok evs))) :=
  ⟨reportAttemptedShake_char cvtColor mm src p thr,
   reportAttemptedDetect_char cvtColor dms src p ct⟩

/-- Claim C4: with a profile that is neither `face` nor `object`, the
detection operation fails before any frame is read: no frame is consumed
(`framesRead = 0`), the result is empty, the capture is not released, and
no report write is attempted. -/
theorem C4_unknown_profile {F G : Type} (cvtColor : F → G)
    (dms : String → G → List Box) (src : FrameSource F) (p ct : String)
    (hf : ct ≠ "face") (ho : ct ≠ "object") :
    detect_faces_objects cvtColor dms src p ct =
      .ok (DetectOutcome.mk [] false none 0) :=
  detect_faces_objects_unknown cvtColor dms src p ct hf ho

/-- Concrete instance of C4 at the unrecognized profile `"body"`. -/
theorem C4_unknown_profile_witness :
    ("body" : String) ≠ "face" ∧ ("body" : String) ≠ "object" ∧
    detect_faces_objects (fun n : ℕ => n) (fun _ _ => ([] : List Box))
        ⟨true, 30, [0]⟩ "v.mp4" "body" = .ok (DetectOutcome.mk [] false none 0) :=
  ⟨by decide, by decide,
   C4_unknown_profile (fun n : ℕ => n) (fun _ _ => ([] : List Box))
     ⟨true, 30, [0]⟩ "v.mp4" "body" (by decide) (by decide)⟩

lemma pairMeans_length {F G : Type} (cvtColor : F → G) (mm : G → G → ℚ) :
    ∀ (g : G) (fs : List F), (pairMeans cvtColor mm g fs).length = fs.length := by
  intro g fs
  induction fs generalizing g with
  | nil => rfl
  | cons f rest ih => simp [pairMeans, ih]

/-- Claim C5: a DetectionEvent exists for a frame if and only if the
classifier returned at least one box there; its `count` is the number of
boxes and its `locations` are the boxes in classifier order; and the
report's `total_frames_with_detections` equals the number of frames with
at least one box (never more). -/
theorem C5_detection_iff {F G : Type} (cvtColor : F → G)
    (dms : String → G → List Box) (fps : ℚ) (hfps : fps ≠ 0) (p : String)
    (frames : List F) (ct path : String)
    (hpath : (ct = "face" ∧ path = face_cascade_path) ∨
             (ct = "object" ∧ path = fullbody_cascade_path)) :
    ∃ o : DetectOutcome,
      detect_faces_objects cvtColor dms ⟨true, fps, frames⟩ p ct = .ok o ∧
      (∀ j bs, (frames.map (fun fr => dms path (cvtColor fr)))[j]? = some bs →
        (((∃ e ∈ o.result, e.frame = j) ↔ 0 < bs.length) ∧
         (∀ e ∈ o.result, e.frame = j →
            e = DetectionEvent.mk j ((j : ℚ) / fps) bs.length bs))) ∧
      (∀ e ∈ o.result, ∃ j bs,
         (frames.map (fun fr => dms path (cvtColor fr)))[j]? = some bs ∧ 0 < bs.length ∧
         e = DetectionEvent.mk j ((j : ℚ) / fps) bs.length bs) ∧
      (∃ r, o.report = some r ∧
        r.total_frames_with_detections =
          (frames.map (fun fr => dms path (cvtColor fr))).countP
            (fun bs => decide (0 < bs.length))) := by
  have key : ∀ (path2 : String),
      (∀ j bs, (frames.map (fun fr => dms path2 (cvtColor fr)))[j]? = some bs →
        (((∃ e ∈ detectEventsSpec fps 0 (frames.map (fun fr => dms path2 (cvtColor fr))),
             e.frame = j) ↔ 0 < bs.length) ∧
         (∀ e ∈ detectEventsSpec fps 0 (frames.map (fun fr => dms path2 (cvtColor fr))),
            e.frame = j → e = DetectionEvent.mk j ((j : ℚ) / fps) bs.length bs))) ∧
      (∀ e ∈ detectEventsSpec fps 0 (frames.map (fun fr => dms path2 (cvtColor fr))),
         ∃ j bs, (frames.map (fun fr => dms path2 (cvtColor fr)))[j]? = some bs ∧
           0 < bs.length ∧ e = DetectionEvent.mk j ((j : ℚ) / fps) bs.length bs) := by
    intro path2
    constructor
    · intro j bs hj
      constructor
      · constructor
        · rintro ⟨e, he, hframe⟩
          rw [mem_detectEventsSpec] at he
          obtain ⟨j', bs', hj', hbs', rfl⟩ := he
          simp only [] at hframe
          have hjj : j' = j := by omega
          subst hjj
          have hbb : bs' = bs := by
            rw [hj] at hj'
            exact (Option.some.inj hj').symm
          subst hbb
          exact hbs'
        · intro hbs
          refine ⟨DetectionEvent.mk (0 + j) (((0 + j : ℕ) : ℚ) / fps) bs.length bs, ?_,
            by show 0 + j = j; omega⟩
          rw [mem_detectEventsSpec]
          exact ⟨j, bs, hj, hbs, rfl⟩
      · intro e he hframe
        rw [mem_detectEventsSpec] at he
        obtain ⟨j', bs', hj', hbs', rfl⟩ := he
        simp only [] at hframe
        have hjj : j' = j := by omega
        subst hjj
        have hbb : bs' = bs := by
          rw [hj] at hj'
          exact (Option.some.inj hj').symm
        subst hbb
        simp
    · intro e he
      rw [mem_detectEventsSpec] at he
      obtain ⟨j, bs, hj, hbs, rfl⟩ := he
      refine ⟨j, bs, hj, hbs, ?_⟩
      simp
  rcases hpath with ⟨hct, hp⟩ | ⟨hct, hp⟩ <;> subst hct <;> subst hp
  · refine ⟨_, detect_faces_objects_face_ok cvtColor dms fps hfps p frames, ?_, ?_, ?_⟩
    · exact (key face_cascade_path).1
    · exact (key face_cascade_path).2
    · exact ⟨_, rfl, detectEventsSpec_length fps 0 _⟩
  · refine ⟨_, detect_faces_objects_object_ok cvtColor dms fps hfps p frames, ?_, ?_, ?_⟩
    · exact (key fullbody_cascade_path).1
    · exact (key fullbody_cascade_path).2
    · exact ⟨_, rfl, detectEventsSpec_length fps 0 _⟩

/-- Claim C6: the shake-event frame indices are strictly increasing in
source order and form a subsequence of `1 .. N-1` (for `N = 1 + rest.length`
frames), and no event has frame index `0`. -/
theorem C6_frame_index_subsequence {F G : Type} (cvtColor : F → G)
    (mm : G → G → ℚ) (fps thr : ℚ) (hfps : fps ≠ 0) (p : String)
    (f : F) (rest : List F) :
    ∃ o : ShakeOutcome,
      detect_camera_shake cvtColor mm ⟨true, fps, f :: rest⟩ p thr = .ok o ∧
      List.Sublist (o.result.map ShakeEvent.frame) (List.range' 1 rest.length) ∧
      List.Pairwise (· < ·) (o.result.map ShakeEvent.frame) ∧
      ∀ e ∈ o.result, 1 ≤ e.frame ∧ e.frame ≤ rest.length := by
  refine ⟨_, detect_camera_shake_ok cvtColor mm fps thr hfps p f rest, ?_, ?_, ?_⟩
  · have h := shakeEventsSpec_map_frame_sublist fps thr 1
      (pairMeans cvtColor mm (cvtColor f) rest)
    rwa [pairMeans_length] at h
  · have h := shakeEventsSpec_map_frame_sublist fps thr 1
      (pairMeans cvtColor mm (cvtColor f) rest)
    exact (List.pairwise_lt_range' 1 _).sublist h
  · intro e he
    rw [mem_shakeEventsSpec] at he
    obtain ⟨j, m, hj, hm, rfl⟩ := he
    have hlt : j < (pairMeans cvtColor mm (cvtColor f) rest).length :=
      (List.getElem?_eq_some.mp hj).1
    rw [pairMeans_length] at hlt
    constructor
    · show 1 ≤ 1 + j
      omega
    · show 1 + j ≤ rest.length
      omega

/-- Claim C7: with `threshold₁ < threshold₂` on the same video, every shake
event produced at threshold₂ is also produced at threshold₁. -/
theorem C7_threshold_monotone {F G : Type} (cvtColor : F → G)
    (mm : G → G → ℚ) (src : FrameSource F) (p : String) (t1 t2 : ℚ)
    (hfps : src.fps ≠ 0) (h12 : t1 < t2) :
    ∃ o1 o2 : ShakeOutcome,
      detect_camera_shake cvtColor mm src p t1 = .ok o1 ∧
      detect_camera_shake cvtColor mm src p t2 = .ok o2 ∧
      ∀ e ∈ o2.result, e ∈ o1.result := by
  obtain ⟨op, fps, frames⟩ := src
  cases op with
  | false =>
      exact ⟨_, _, detect_camera_shake_not_opened _ _ _ _ _ rfl,
             detect_camera_shake_not_opened _ _ _ _ _ rfl, by simp⟩
  | true =>
      cases frames with
      | nil =>
          exact ⟨_, _, detect_camera_shake_empty _ _ _ _ _ rfl,
                 detect_camera_shake_empty _ _ _ _ _ rfl, by simp⟩
      | cons f rest =>
          refine ⟨_, _, detect_camera_shake_ok cvtColor mm fps t1 hfps p f rest,
                  detect_camera_shake_ok cvtColor mm fps t2 hfps p f rest, ?_⟩
          intro e he
          rw [mem_shakeEventsSpec] at he ⊢
          obtain ⟨j, m, hj, hm, rfl⟩ := he
          exact ⟨j, m, hj, lt_trans h12 hm, rfl⟩

/-- Claim C8: shake detection is deterministic — two runs on the same
source with the same threshold (and the same grayscale conversion and
motion estimator) produce the same result, in particular identical
shake-event sequences. -/
theorem C8_determinism {F G : Type} (cvtColor : F → G) (mm : G → G → ℚ)
    (src1 src2 : FrameSource F) (p : String) (t1 t2 : ℚ)
    (hsrc : src1 = src2) (ht : t1 = t2) :
    detect_camera_shake cvtColor mm src1 p t1 =
      detect_camera_shake cvtColor mm src2 p t2 := by
  rw [hsrc, ht]

/-- Claim C9: whenever a run attempts a report write, the serialized event
list is exactly the list the operation returns, the report names the input
video, and the count field (`total_events`, respectively
`total_frames_with_detections`) equals that list's length. -/
theorem C9_report_consistency {F G : Type} (cvtColor : F → G)
    (mm : G → G → ℚ) (dms : String → G → List Box) (src : FrameSource F)
    (p ct : String) (thr : ℚ) :
    (∀ o r, detect_camera_shake cvtColor mm src p thr = .ok o →
       o.report = some r →
       r.source_video = p ∧ r.shake_events = o.result ∧
         r.total_events = o.result.length) ∧
    (∀ o r, detect_faces_objects cvtColor dms src p ct = .ok o →
       o.report = some r →
       r.source_video = p ∧ r.detection_type = ct ∧ r.detections = o.result ∧
         r.total_frames_with_detections = o.result.length) := by
  obtain ⟨op, fps, frames⟩ := src
  constructor
  · intro o r ho hr
    cases op with
    | false =>
        rw [detect_camera_shake_not_opened _ _ _ _ _ rfl] at ho
        have h := Except.ok.inj ho
        subst h
        simp at hr
    | true =>
        cases frames with
        | nil =>
            rw [detect_camera_shake_empty _ _ _ _ _ rfl] at ho
            have h := Except.ok.inj ho
            subst h
            simp at hr
        | cons f rest =>
            rw [detect_camera_shake_cons] at ho
            cases hl : shakeLoop cvtColor mm fps thr (cvtColor f) rest 1 with
            | error s =>
                rw [hl] at ho
                simp [Except.bind] at ho
            | ok evs =>
                rw [hl] at ho
                simp only [Except.bind] at ho
                have h := Except.ok.inj ho
                subst h
                have h2 := Option.some.inj hr
                subst h2
                exact ⟨rfl, rfl, rfl⟩
  · intro o r ho hr
    cases op with
    | false =>
        rw [detect_faces_objects_not_opened _ _ _ _ _ rfl] at ho
        have h := Except.ok.inj ho
        subst h
        simp at hr
    | true =>
        by_cases hface : ct = "face"
        · subst hface
          rw [detect_faces_objects_face] at ho
          cases hl : detectLoop cvtColor (dms face_cascade_path) fps frames 0 with
          | error s =>
              rw [hl] at ho
              simp [Except.bind] at ho
          | ok evs =>
              rw [hl] at ho
              simp only [Except.bind] at ho
              have h := Except.ok.inj ho
              subst h
              have h2 := Option.some.inj hr
              subst h2
              exact ⟨rfl, rfl, rfl, rfl⟩
        · by_cases hobj : ct = "object"
          · subst hobj
            rw [detect_faces_objects_object] at ho
            cases hl : detectLoop cvtColor (dms fullbody_cascade_path) fps frames 0 with
            | error s =>
                rw [hl] at ho
                simp [Except.bind] at ho
            | ok evs =>
                rw [hl] at ho
                simp only [Except.bind] at ho
                have h := Except.ok.inj ho
                subst h
                have h2 := Option.some.inj hr
                subst h2
                exact ⟨rfl, rfl, rfl, rfl⟩
          · rw [detect_faces_objects_unknown _ _ _ _ _ hface hobj] at ho
            have h := Except.ok.inj ho
            subst h
            simp at hr

/-- Claim C10: the timestamp computation `frame_index / fps` is unguarded:
with `fps > 0` every run of either operation returns a result, while a
source reporting `fps = 0` together with an event-producing frame pair
makes shake detection abort with a division-by-zero error. -/
theorem C10_timestamp_division {F G : Type} (cvtColor : F → G)
    (mm : G → G → ℚ) (dms : String → G → List Box) :
    (∀ (src : FrameSource F) (p : String) (thr : ℚ), 0 < src.fps →
       (∃ o, detect_camera_shake cvtColor mm src p thr = .ok o) ∧
       (∀ ct, ∃ o, detect_faces_objects cvtColor dms src p ct = .ok o)) ∧
    detect_camera_shake (fun n : ℕ => n) (fun _ b => (b : ℚ))
        ⟨true, 0, [0, 1]⟩ "v.mp4" (1/2) = .error "ZeroDivisionError" := by
  constructor
  · intro src p thr hfps
    have hne : src.fps ≠ 0 := ne_of_gt hfps
    obtain ⟨op, fps, frames⟩ := src
    constructor
    · cases op with
      | false => exact ⟨_, detect_camera_shake_not_opened _ _ _ _ _ rfl⟩
      | true =>
          cases frames with
          | nil => exact ⟨_, detect_camera_shake_empty _ _ _ _ _ rfl⟩
          | cons f rest =>
              exact ⟨_, detect_camera_shake_ok cvtColor mm fps thr hne p f rest⟩
    · intro ct
      cases op with
      | false => exact ⟨_, detect_faces_objects_not_opened _ _ _ _ _ rfl⟩
      | true =>
          by_cases hface : ct = "face"
          · subst hface
            exact ⟨_, detect_faces_objects_face_ok cvtColor dms fps hne p frames⟩
          · by_cases hobj : ct = "object"
            · subst hobj
              exact ⟨_, detect_faces_objects_object_ok cvtColor dms fps hne p frames⟩
            · exact ⟨_, detect_faces_objects_unknown _ _ _ _ _ hface hobj⟩
  · have hloop : shakeLoop (fun n : ℕ => n) (fun _ b => (b : ℚ)) 0 (1/2) 0 [1] 1
        = .error "ZeroDivisionError" := by
      rw [shakeLoop]
      norm_num [pyDiv, Except.bind]
      rfl
    rw [detect_camera_shake_cons, hloop]
    rfl

/-- Concrete instance of C5: two frames, a face box on frame 0 only. -/
theorem C5_detection_iff_witness :
    (25 : ℚ) ≠ 0 ∧
    ((("face" : String) = "face" ∧ face_cascade_path = face_cascade_path) ∨
     (("face" : String) = "object" ∧ face_cascade_path = fullbody_cascade_path)) ∧
    (∃ o : DetectOutcome,
      detect_faces_objects grayId boxAtZero ⟨true, 25, [0, 1]⟩ "v.mp4" "face" = .ok o ∧
      (∀ j bs, (([0, 1] : List ℕ).map
            (fun fr => boxAtZero face_cascade_path (grayId fr)))[j]? = some bs →
        (((∃ e ∈ o.result, e.frame = j) ↔ 0 < bs.length) ∧
         (∀ e ∈ o.result, e.frame = j →
            e = DetectionEvent.mk j ((j : ℚ) / 25) bs.length bs))) ∧
      (∀ e ∈ o.result, ∃ j bs,
         (([0, 1] : List ℕ).map
            (fun fr => boxAtZero face_cascade_path (grayId fr)))[j]? = some bs ∧
           0 < bs.length ∧ e = DetectionEvent.mk j ((j : ℚ) / 25) bs.length bs) ∧
      (∃ r, o.report = some r ∧
        r.total_frames_with_detections =
          (([0, 1] : List ℕ).map
            (fun fr => boxAtZero face_cascade_path (grayId fr))).countP
            (fun bs => decide (0 < bs.length)))) :=
  ⟨by norm_num, Or.inl ⟨rfl, rfl⟩,
   C5_detection_iff grayId boxAtZero 25 (by norm_num) "v.mp4" [0, 1] "face"
     face_cascade_path (Or.inl ⟨rfl, rfl⟩)⟩

/-- Concrete instance of C6: fps 10, threshold 1/2, frames `[0, 1]`. -/
theorem C6_frame_index_subsequence_witness :
    (10 : ℚ) ≠ 0 ∧
    (∃ o : ShakeOutcome,
      detect_camera_shake grayId magSecond ⟨true, 10, 0 :: [1]⟩ "v.mp4" (1/2) = .ok o ∧
      List.Sublist (o.result.map ShakeEvent.frame) (List.range' 1 [(1 : ℕ)].length) ∧
      List.Pairwise (· < ·) (o.result.map ShakeEvent.frame) ∧
      ∀ e ∈ o.result, 1 ≤ e.frame ∧ e.frame ≤ [(1 : ℕ)].length) :=
  ⟨by norm_num,
   C6_frame_index_subsequence grayId magSecond 10 (1/2) (by norm_num) "v.mp4" 0 [1]⟩

/-- Concrete instance of C7: thresholds 1/4 < 1/2 on the same video. -/
theorem C7_threshold_monotone_witness :
    (FrameSource.mk true 10 [0, 1] : FrameSource ℕ).fps ≠ 0 ∧ (1/4 : ℚ) < 1/2 ∧
    (∃ o1 o2 : ShakeOutcome,
      detect_camera_shake grayId magSecond ⟨true, 10, [0, 1]⟩ "v.mp4" (1/4) = .ok o1 ∧
      detect_camera_shake grayId magSecond ⟨true, 10, [0, 1]⟩ "v.mp4" (1/2) = .ok o2 ∧
      ∀ e ∈ o2.result, e ∈ o1.result) :=
  ⟨by show (10 : ℚ) ≠ 0; norm_num, by norm_num,
   C7_threshold_monotone grayId magSecond ⟨true, 10, [0, 1]⟩ "v.mp4" (1/4) (1/2)
     (by show (10 : ℚ) ≠ 0; norm_num) (by norm_num)⟩

/-- Concrete instance of C8: the two runs coincide on equal inputs. -/
theorem C8_determinism_witness :
    (FrameSource.mk true 10 [0, 1] : FrameSource ℕ) = ⟨true, 10, [0, 1]⟩ ∧
    (1/2 : ℚ) = 1/2 ∧
    detect_camera_shake grayId magSecond ⟨true, 10, [0, 1]⟩ "v.mp4" (1/2) =
      detect_camera_shake grayId magSecond ⟨true, 10, [0, 1]⟩ "v.mp4" (1/2) :=
  ⟨rfl, rfl,
   C8_determinism grayId magSecond ⟨true, 10, [0, 1]⟩ ⟨true, 10, [0, 1]⟩ "v.mp4"
     (1/2) (1/2) rfl rfl⟩

/-- Concrete instance of C9: a one-frame video writes a zero-event report
whose fields match the returned (empty) list. -/
theorem C9_report_consistency_witness :
    detect_camera_shake grayId magSecond ⟨true, 10, [0]⟩ "v.mp4" (1/2) =
      .ok ⟨[], true, some ⟨"v.mp4", [], 0⟩⟩ ∧
    ((ShakeReport.mk "v.mp4" [] 0).source_video = "v.mp4" ∧
     (ShakeReport.mk "v.mp4" [] 0).shake_events =
       (ShakeOutcome.mk [] true (some ⟨"v.mp4", [], 0⟩)).result ∧
     (ShakeReport.mk "v.mp4" [] 0).total_events =
       (ShakeOutcome.mk [] true (some ⟨"v.mp4", [], 0⟩)).result.length) :=
  ⟨rfl,
   (C9_report_consistency grayId magSecond boxAtZero ⟨true, 10, [0]⟩ "v.mp4" "face"
      (1/2)).1 ⟨[], true, some ⟨"v.mp4", [], 0⟩⟩ ⟨"v.mp4", [], 0⟩ rfl rfl⟩

/-- Concrete instance of C10's positive half: with fps 10 both operations
return a result. -/
theorem C10_timestamp_division_witness :
    (0 : ℚ) < (FrameSource.mk true 10 [0, 1] : FrameSource ℕ).fps ∧
    ((∃ o, detect_camera_shake grayId magSecond ⟨true, 10, [0, 1]⟩ "v.mp4" (1/2) = .ok o) ∧
     (∀ ct, ∃ o, detect_faces_objects grayId boxAtZero ⟨true, 10, [0, 1]⟩ "v.mp4" ct = .ok o)) :=
  ⟨by show (0 : ℚ) < 10; norm_num,
   (C10_timestamp_division grayId magSecond boxAtZero).1 ⟨true, 10, [0, 1]⟩ "v.mp4"
     (1/2) (by show (0 : ℚ) < 10; norm_num)⟩
